import Mathlib

/-!
Verification of the entity-mapping and batch-write layer of the
practice-neo4j client scripts (`src/client/python/src/users.py` and
`src/client/python/src/basic.py`).

Python values that can appear in a property bag are modelled by the
inductive `Value`; the external store temporal type `neo4j.time.Date` is a
constructor distinct from the native `datetime.date` constructor, since the
two are different classes and `isinstance` distinguishes them.  Property
dictionaries are association lists whose `get` returns `vnull` for an
absent key, matching Python's `dict.get` returning `None`.  Exceptions are
modelled with `Except`.
-/

namespace Neo4jClient

/-- A calendar date, the payload of both `datetime.date` and `neo4j.time.Date`. -/
structure CalDate where
  year : Nat
  month : Nat
  day : Nat
deriving DecidableEq, Repr

/-- A timestamp, the payload of `datetime.datetime` (field `since`). -/
structure Timestamp where
  year : Nat
  month : Nat
  day : Nat
  hour : Nat
  minute : Nat
  second : Nat
deriving DecidableEq, Repr

/-- The `Gender` enum of `users.py` (MALE, FEMALE, OTHER). -/
inductive Gender where
  | male
  | female
  | other
deriving DecidableEq, Repr

/-- The string code of a gender, i.e. the `.value` of the Python enum member. -/
def Gender.value : Gender → String
  | .male => "male"
  | .female => "female"
  | .other => "other"

/-- A Python value that can occur in a property bag: `None`, a string, a
native `datetime.date`, a store `neo4j.time.Date`, or a `datetime.datetime`. -/
inductive Value where
  | vnull
  | vstr (s : String)
  | vdate (d : CalDate)
  | vneodate (d : CalDate)
  | vdatetime (t : Timestamp)
deriving DecidableEq, Repr

/-- Python truthiness of a property value: `None` and the empty string are
falsy, every date, store date and datetime object is truthy. -/
def Value.truthy : Value → Bool
  | .vnull => false
  | .vstr s => if s = "" then false else true
  | .vdate _ => true
  | .vneodate _ => true
  | .vdatetime _ => true

/-- A property dictionary: an association list from key to value. -/
abbrev Dict := List (String × Value)

/-- Python `d.get(k)`: the value stored at `k`, or `None` when absent. -/
def Dict.get (d : Dict) (k : String) : Value :=
  match List.find? (fun kv => kv.1 == k) d with
  | some kv => kv.2
  | none => .vnull

/-- Python exceptions raised by the mapping layer: `ValueError` from a
failed `Gender(code)` enum lookup, `AttributeError` from dereferencing
`None`. -/
inductive PyError where
  | valueError
  | attributeError
deriving DecidableEq, Repr

/-- The Python enum constructor `Gender(v)`: returns the member whose value
equals `v`, raising `ValueError` for every other argument. -/
def Gender.ofValue (v : Value) : Except PyError Gender :=
  match v with
  | .vstr s =>
      if s = "male" then .ok .male
      else if s = "female" then .ok .female
      else if s = "other" then .ok .other
      else .error .valueError
  | _ => .error .valueError

/-- Line 76 of `users.py`: `birth_date.to_native() if isinstance(birth_date, Date) else None`.
Only a store `neo4j.time.Date` is converted; any other value becomes `None`. -/
def decodeBirthDate : Value → Option CalDate
  | .vneodate d => some d
  | _ => none

/-- The `User._Properties` dataclass: `user_id`, `name`, optional
`birth_date`, optional `gender`.  The identity fields hold whatever value
was passed (Python does not enforce the `str` annotations). -/
structure UserProperties where
  user_id : Value
  name : Value
  birth_date : Option CalDate
  gender : Option Gender
deriving DecidableEq, Repr

/-- `User._Properties.to_dict`: gender serialized as its string code or
`None`, `birth_date` passed through as a native date or `None`. -/
def UserProperties.to_dict (p : UserProperties) : Dict :=
  [("user_id", p.user_id),
   ("name", p.name),
   ("birth_date", match p.birth_date with
                  | some d => .vdate d
                  | none => .vnull),
   ("gender", match p.gender with
              | some g => .vstr g.value
              | none => .vnull)]

/-- The `User` class: an optional properties record. -/
structure User where
  properties : Option UserProperties
deriving DecidableEq, Repr

/-- `User.__init__`: always builds a populated `_Properties` record. -/
def User.init (user_id name : Value) (birth_date : Option CalDate)
    (gender : Option Gender) : User :=
  ⟨some ⟨user_id, name, birth_date, gender⟩⟩

/-- `User.to_dict`: the value of the single `properties` key, which is the
serialized properties when present and `None` otherwise. -/
def User.to_dict (u : User) : Option Dict :=
  match u.properties with
  | some p => some p.to_dict
  | none => none

/-- `User.from_entity`: decode a node's property bag.  Gender is decoded
only when truthy (so `None` and `""` both give `None`), an unknown truthy
gender raises `ValueError`; missing keys are substituted as `None`. -/
def User.from_entity (props : Dict) : Except PyError User :=
  let birth_date := Dict.get props "birth_date"
  let gender := Dict.get props "gender"
  match (if gender.truthy then Except.map some (Gender.ofValue gender)
         else .ok none) with
  | .error e => .error e
  | .ok g =>
      .ok (User.init (Dict.get props "user_id") (Dict.get props "name")
        (decodeBirthDate birth_date) g)

/-- The `FollowRelationship._Properties` dataclass. -/
structure FollowProperties where
  relationship_id : Value
  since : Value
deriving DecidableEq, Repr

/-- `FollowRelationship._Properties.to_dict`. -/
def FollowProperties.to_dict (p : FollowProperties) : Dict :=
  [("relationship_id", p.relationship_id),
   ("since", p.since)]

/-- The `FollowRelationship` class. -/
structure FollowRelationship where
  start_node : User
  end_node : User
  properties : Option FollowProperties
deriving DecidableEq, Repr

/-- `FollowRelationship.__init__`: always builds a populated properties
record. -/
def FollowRelationship.init (relationship_id : Value) (start_node end_node : User)
    (since : Value) : FollowRelationship :=
  ⟨start_node, end_node, some ⟨relationship_id, since⟩⟩

/-- The serialized form of a relationship produced by
`FollowRelationship.to_dict`: the two endpoint user ids plus the optional
edge property bag. -/
structure FollowDict where
  start_user_id : Value
  end_user_id : Value
  properties : Option Dict
deriving DecidableEq, Repr

/-- `FollowRelationship.to_dict`: reads `start_node.properties.user_id` and
`end_node.properties.user_id` without a guard, so a `None` properties field
on either endpoint raises `AttributeError`; the edge properties are
null-guarded. -/
def FollowRelationship.to_dict (r : FollowRelationship) : Except PyError FollowDict :=
  match r.start_node.properties, r.end_node.properties with
  | some sp, some ep =>
      .ok ⟨sp.user_id, ep.user_id,
           match r.properties with
           | some p => some p.to_dict
           | none => none⟩
  | _, _ => .error .attributeError

/-- `FollowRelationship.from_entity`: missing keys are substituted as
`None`; never raises. -/
def FollowRelationship.from_entity (props : Dict) (start_node end_node : User) :
    FollowRelationship :=
  FollowRelationship.init (Dict.get props "relationship_id") start_node end_node
    (Dict.get props "since")

/-- Sequential accumulation of a fallible map, as a Python `for` loop over
query records performs it: the first raised error aborts the loop. -/
def mapE {α β ε : Type} (f : α → Except ε β) : List α → Except ε (List β)
  | [] => .ok []
  | a :: l =>
      match f a with
      | .error e => .error e
      | .ok b =>
          match mapE f l with
          | .error e => .error e
          | .ok l' => .ok (b :: l')

/-- Errors surfacing from a batch operation: a store-side error from
setting properties from a null map, or a Python exception from the
mapping layer. -/
inductive RunError where
  | storeNull
  | py (e : PyError)
deriving DecidableEq, Repr

/-- A store edge row as returned by the follow-creation query: the edge's
property bag and the two matched endpoint nodes' property bags. -/
structure FollowEdge where
  properties : Dict
  start_props : Dict
  end_props : Dict
deriving DecidableEq, Repr

/-- Modelled from the spec: the external graph store, which is not part of
this repository.  It holds the created `User` nodes (each a flat property
bag) and the created `FOLLOWS` edges. -/
structure Store where
  nodes : List Dict
  edges : List FollowEdge
deriving DecidableEq, Repr

/-- Modelled from the spec: a `MATCH` on the `user_id` property returns
every stored node whose `user_id` property equals the given value. -/
def Store.matchUsers (store : Store) (uid : Value) : List Dict :=
  List.filter (fun n => Dict.get n "user_id" == uid) store.nodes

/-- Modelled from the spec: the user-creation query of `create_user_nodes`
(`UNWIND $users AS user CREATE (u:User) SET u = user.properties RETURN u`).
One node is created per entry with exactly the given properties and the
created nodes are returned in entry order; setting properties from a null
map is a store-side error. -/
def runCreateUsersQuery (store : Store) (users_dict : List (Option Dict)) :
    Except RunError (Store × List Dict) :=
  match mapE (fun d => match d with
                       | some props => Except.ok props
                       | none => Except.error RunError.storeNull) users_dict with
  | .error e => .error e
  | .ok props =>
      .ok ({ store with nodes := store.nodes ++ props }, props)

/-- `create_user_nodes`: serialize each user, run the batch-create query,
decode each returned node with `User.from_entity`. -/
def create_user_nodes (store : Store) (users : List User) :
    Except RunError (Store × List User) :=
  match runCreateUsersQuery store (List.map User.to_dict users) with
  | .error e => .error e
  | .ok (store2, rows) =>
      match mapE (fun n => Except.mapError RunError.py (User.from_entity n)) rows with
      | .error e => .error e
      | .ok created => .ok (store2, created)

/-- Modelled from the spec: one entry of the follow-creation query.  The
two `MATCH` clauses produce the cartesian product of the nodes matching the
two endpoint ids; one edge is created per pair, carrying the entry's
property map (a store-side error if that map is null).  An entry whose
either endpoint matches no node contributes zero rows. -/
def rowsForEntry (store : Store) (fd : FollowDict) : Except RunError (List FollowEdge) :=
  let pairs := List.flatMap (store.matchUsers fd.start_user_id)
    (fun s => List.map (fun e => (s, e)) (store.matchUsers fd.end_user_id))
  mapE (fun se => match fd.properties with
                  | some p => Except.ok (FollowEdge.mk p se.1 se.2)
                  | none => Except.error RunError.storeNull) pairs

/-- Modelled from the spec: the follow-creation query of
`create_follow_relationships` (`UNWIND ... MATCH start MATCH end CREATE
(start)-[f:FOLLOWS]->(end) SET f = follow.properties RETURN f, start, end`).
Rows of all entries are concatenated in entry order. -/
def runCreateFollowsQuery (store : Store) (follows : List FollowDict) :
    Except RunError (Store × List FollowEdge) :=
  match mapE (rowsForEntry store) follows with
  | .error e => .error e
  | .ok rowlists =>
      .ok ({ store with edges := store.edges ++ rowlists.flatten }, rowlists.flatten)

/-- `create_follow_relationships`: serialize each relationship, run the
batch query, and decode each returned row (edge properties plus the two
endpoint nodes) back into a `FollowRelationship`. -/
def create_follow_relationships (store : Store) (rels : List FollowRelationship) :
    Except RunError (Store × List FollowRelationship) :=
  match mapE (fun r => Except.mapError RunError.py (FollowRelationship.to_dict r)) rels with
  | .error e => .error e
  | .ok relationships_dict =>
      match runCreateFollowsQuery store relationships_dict with
      | .error e => .error e
      | .ok (store2, rows) =>
          match mapE (fun row =>
              match User.from_entity row.start_props with
              | .error e => Except.error (RunError.py e)
              | .ok s =>
                  match User.from_entity row.end_props with
                  | .error e => Except.error (RunError.py e)
                  | .ok e =>
                      Except.ok (FollowRelationship.from_entity row.properties s e)) rows with
          | .error e => .error e
          | .ok created => .ok (store2, created)

/-!
Resource model for the two script entry points.  A `Script` is the control
skeleton of a Python script: store calls that may raise (the oracle decides
which), explicit open and close calls as in `basic.py`, and `with` blocks
and `try/except` as in `users.py`.
-/

/-- Control skeleton of a script: store queries (which may raise, as
decided by an oracle), explicit session open/close and driver close calls,
sequencing, `with driver`, `with session`, and `try/except`. -/
inductive Script where
  | runQuery (idx : Nat)
  | openSession
  | closeSession
  | closeDriver
  | seq (a b : Script)
  | withDriver (body : Script)
  | withSession (body : Script)
  | tryExcept (body : Script)

/-- Resource-accounting state of a script run: sessions opened, sessions
closed, whether the driver was closed. -/
structure RState where
  opened : Nat
  closed : Nat
  driverClosed : Bool
deriving DecidableEq, Repr

/-- Execute a script under an oracle telling which store queries raise.
Returns the final resource state and whether an exception is propagating.
A raising query aborts the rest of a `seq`; a `with` block releases its
resource on both exits; `try/except` swallows the exception. -/
def Script.exec (oracle : Nat → Bool) : Script → RState → RState × Bool
  | .runQuery i, s => (s, oracle i)
  | .openSession, s => ({ s with opened := s.opened + 1 }, false)
  | .closeSession, s => ({ s with closed := s.closed + 1 }, false)
  | .closeDriver, s => ({ s with driverClosed := true }, false)
  | .seq a b, s =>
      match Script.exec oracle a s with
      | (s1, true) => (s1, true)
      | (s1, false) => Script.exec oracle b s1
  | .withDriver body, s =>
      match Script.exec oracle body s with
      | (s1, r) => ({ s1 with driverClosed := true }, r)
  | .withSession body, s =>
      match Script.exec oracle body { s with opened := s.opened + 1 } with
      | (s1, r) => ({ s1 with closed := s1.closed + 1 }, r)
  | .tryExcept body, s =>
      match Script.exec oracle body s with
      | (s1, _) => (s1, false)

/-- `basic.py` `main`: unscoped `driver.session()`, three store queries,
then explicit `session.close()` and `driver.close()` at the end. -/
def basicScript : Script :=
  .seq .openSession
    (.seq (.runQuery 0)
      (.seq (.runQuery 1)
        (.seq (.runQuery 2)
          (.seq .closeSession .closeDriver))))

/-- `users.py` `main`: a `try/except` around `with GraphDatabase.driver(...)`,
inside which `create_user_nodes` runs its query in one `with driver.session()`
block and `create_follow_relationships` runs its query in another. -/
def usersMainScript : Script :=
  .tryExcept (.withDriver
    (.seq (.withSession (.runQuery 0))
          (.withSession (.runQuery 1))))

/-!
Theorems.
-/

/-- Shared helper: decoding a serialized `User._Properties` bag restores
`user_id`, `name` and `gender` but always maps `birth_date` to `None`,
because the serialized value is a native `datetime.date` and `from_entity`
converts only the store type `neo4j.time.Date`. -/
theorem from_entity_to_dict (p : UserProperties) :
    User.from_entity (UserProperties.to_dict p) =
      .ok (User.init p.user_id p.name none p.gender) := by
  obtain ⟨uid, nm, bd, g⟩ := p
  cases bd <;> rcases g with _ | g | g | g <;> rfl

/-- C1: the claim as stated is false.  For the fully populated user
(user_id "u1", name "Alice", birth_date 2000-10-11, gender FEMALE),
serializing with `to_dict` and reconstructing with `from_entity` yields a
user whose `birth_date` is `None`, not a user equal to the original:
`from_entity` converts only the store's `neo4j.time.Date` values and maps
the native `datetime.date` emitted by `to_dict` to `None`. -/
theorem C1_counterexample :
    User.from_entity (UserProperties.to_dict
        ⟨.vstr "u1", .vstr "Alice", some ⟨2000, 10, 11⟩, some .female⟩) =
      .ok (User.init (.vstr "u1") (.vstr "Alice") none (some .female))
    ∧ User.init (.vstr "u1") (.vstr "Alice") none (some .female) ≠
        User.mk (some ⟨.vstr "u1", .vstr "Alice", some ⟨2000, 10, 11⟩, some .female⟩) :=
  ⟨rfl, by decide⟩

/-- C1 (amended): for every User with all four fields populated,
serializing with `to_dict` and reconstructing with `from_entity` yields a
User that agrees with the original on `user_id`, `name` and `gender`
(including the gender code round-trip, e.g. "female" decodes back to
FEMALE) but whose `birth_date` has become `None`. -/
theorem C1_roundtrip_amended (uid nm : Value) (d : CalDate) (g : Gender) :
    User.from_entity (UserProperties.to_dict ⟨uid, nm, some d, some g⟩) =
      .ok (User.init uid nm none (some g))
    ∧ Gender.ofValue (.vstr g.value) = .ok g :=
  ⟨from_entity_to_dict ⟨uid, nm, some d, some g⟩, by cases g <;> rfl⟩

/-- C2: the claim as stated is false.  The empty string is not in the set
of gender codes, yet `from_entity` returns a User (with gender `None`)
instead of failing, because the decode branches on truthiness. -/
theorem C2_counterexample :
    User.from_entity [("user_id", .vstr "u1"), ("name", .vstr "Nana"), ("gender", .vstr "")] =
      .ok (User.init (.vstr "u1") (.vstr "Nana") none none) := rfl

/-- C2 (amended): for every property set whose gender value is a non-empty
string outside the set of codes male, female, other, `from_entity` fails
with the enum lookup error (Python `ValueError`; the code defines no
dedicated InvalidDataError) rather than returning a User.  The empty
string is treated as absent and yields gender `None`. -/
theorem C2_unknown_gender_fails (d : Dict) (s : String)
    (hg : Dict.get d "gender" = .vstr s) (hne : s ≠ "")
    (hm : s ≠ "male") (hf : s ≠ "female") (ho : s ≠ "other") :
    User.from_entity d = .error .valueError := by
  simp [User.from_entity, hg, Value.truthy, Gender.ofValue, Except.map, hne, hm, hf, ho]

/-- C2 witness: the unrecognized non-empty code "unknown" makes
`from_entity` fail with the enum lookup error. -/
theorem C2_unknown_gender_fails_witness :
    Dict.get [("gender", Value.vstr "unknown")] "gender" = .vstr "unknown"
    ∧ User.from_entity [("gender", Value.vstr "unknown")] = .error .valueError :=
  ⟨rfl, C2_unknown_gender_fails [("gender", Value.vstr "unknown")] "unknown" rfl
    (by decide) (by decide) (by decide) (by decide)⟩

/-- C3: the claim as stated is false.  On a property set missing every
required field, `User.from_entity` returns a User whose `user_id` and
`name` are `None`, and `FollowRelationship.from_entity` returns a
relationship whose `relationship_id` and `since` are `None`: both silently
substitute defaults instead of failing with a MissingFieldError (no such
error exists in the code). -/
theorem C3_counterexample :
    User.from_entity [] = .ok (User.init .vnull .vnull none none)
    ∧ FollowRelationship.from_entity [] (User.init (.vstr "a") (.vstr "A") none none)
        (User.init (.vstr "b") (.vstr "B") none none) =
      FollowRelationship.init .vnull (User.init (.vstr "a") (.vstr "A") none none)
        (User.init (.vstr "b") (.vstr "B") none none) .vnull :=
  ⟨rfl, rfl⟩

/-- Shared helper: the only error the enum lookup can produce is
`ValueError`. -/
theorem Gender.ofValue_error (v : Value) (er : PyError)
    (h : Gender.ofValue v = .error er) : er = .valueError := by
  unfold Gender.ofValue at h
  split at h
  · split at h
    · exact absurd h (by simp)
    · split at h
      · exact absurd h (by simp)
      · split at h
        · exact absurd h (by simp)
        · exact (Except.error.inj h).symm
  · exact (Except.error.inj h).symm

/-- C3 (amended): for every property set in which a required field is
missing (`user_id` or `name` for users, in any combination with the other
fields present; `relationship_id` or `since` for relationships),
reconstruction never fails on account of the missing field and silently
substitutes `None` for it: whenever `User.from_entity` returns a User at
all, its `user_id` and `name` are the looked-up values (so `None` for the
missing one), its only possible failure is the `ValueError` caused by an
invalid truthy gender value — independent of the missing required field —
and `FollowRelationship.from_entity` cannot fail and always passes the
looked-up (`None` when missing) values through; no MissingFieldError is
raised or even defined in the code. -/
theorem C3_missing_required_silent (d d2 : Dict) (s e : User)
    (hu : Dict.get d "user_id" = .vnull ∨ Dict.get d "name" = .vnull)
    (hr : Dict.get d2 "relationship_id" = .vnull ∨ Dict.get d2 "since" = .vnull) :
    (∀ u, User.from_entity d = .ok u →
      ∃ g, u = User.init (Dict.get d "user_id") (Dict.get d "name")
        (decodeBirthDate (Dict.get d "birth_date")) g)
    ∧ (∀ er, User.from_entity d = .error er →
        er = .valueError ∧ (Dict.get d "gender").truthy = true
        ∧ Gender.ofValue (Dict.get d "gender") = .error .valueError)
    ∧ FollowRelationship.from_entity d2 s e =
        FollowRelationship.init (Dict.get d2 "relationship_id") s e
          (Dict.get d2 "since") := by
  refine ⟨?_, ?_, rfl⟩
  · intro u h
    simp only [User.from_entity] at h
    split at h
    · simp at h
    · rename_i g heq
      simp only [Except.ok.injEq] at h
      exact ⟨g, h.symm⟩
  · intro er h
    simp only [User.from_entity] at h
    split at h
    · rename_i e2 heq
      simp only [Except.error.injEq] at h
      subst h
      by_cases ht : (Dict.get d "gender").truthy = true
      · rw [if_pos ht] at heq
        cases hov : Gender.ofValue (Dict.get d "gender") with
        | error e3 =>
            rw [hov] at heq
            simp only [Except.map] at heq
            have he3 : e3 = PyError.valueError := Gender.ofValue_error _ _ hov
            have he2 : e3 = e2 := Except.error.inj heq
            refine ⟨by rw [← he2, he3], ht, by rw [he3]⟩
        | ok g =>
            rw [hov] at heq
            simp [Except.map] at heq
      · rw [if_neg ht] at heq
        simp at heq
    · simp at h

/-- C3 witness: a user property set with `user_id` alone missing (name and
a valid gender present) reconstructs with `None` substituted for
`user_id`; a relationship property set with `relationship_id` alone
missing reconstructs with `None` substituted for it. -/
theorem C3_missing_required_silent_witness :
    (Dict.get [("name", Value.vstr "Nana"), ("gender", Value.vstr "female")] "user_id" = .vnull
      ∨ Dict.get [("name", Value.vstr "Nana"), ("gender", Value.vstr "female")] "name" = .vnull)
    ∧ (Dict.get [("since", Value.vstr "t")] "relationship_id" = .vnull
      ∨ Dict.get [("since", Value.vstr "t")] "since" = .vnull)
    ∧ (∃ g, User.init .vnull (.vstr "Nana") none (some .female) =
        User.init
          (Dict.get [("name", Value.vstr "Nana"), ("gender", Value.vstr "female")] "user_id")
          (Dict.get [("name", Value.vstr "Nana"), ("gender", Value.vstr "female")] "name")
          (decodeBirthDate
            (Dict.get [("name", Value.vstr "Nana"), ("gender", Value.vstr "female")] "birth_date"))
          g)
    ∧ FollowRelationship.from_entity [("since", Value.vstr "t")]
        (User.init (.vstr "a") (.vstr "A") none none)
        (User.init (.vstr "b") (.vstr "B") none none) =
      FollowRelationship.init (Dict.get [("since", Value.vstr "t")] "relationship_id")
        (User.init (.vstr "a") (.vstr "A") none none)
        (User.init (.vstr "b") (.vstr "B") none none)
        (Dict.get [("since", Value.vstr "t")] "since") :=
  ⟨Or.inl rfl, Or.inl rfl,
   (C3_missing_required_silent [("name", Value.vstr "Nana"), ("gender", Value.vstr "female")]
     [("since", Value.vstr "t")] (User.init (.vstr "a") (.vstr "A") none none)
     (User.init (.vstr "b") (.vstr "B") none none) (Or.inl rfl) (Or.inl rfl)).1
     (User.init .vnull (.vstr "Nana") none (some .female)) rfl,
   (C3_missing_required_silent [("name", Value.vstr "Nana"), ("gender", Value.vstr "female")]
     [("since", Value.vstr "t")] (User.init (.vstr "a") (.vstr "A") none none)
     (User.init (.vstr "b") (.vstr "B") none none) (Or.inl rfl) (Or.inl rfl)).2.2⟩

/-- C8: for every User whose optional fields are unset, `to_dict`
serializes `birth_date` and `gender` as null, and `from_entity` applied to
that serialization restores both fields to `None` without any error. -/
theorem C8_optional_unset_roundtrip (uid nm : Value) :
    Dict.get (UserProperties.to_dict ⟨uid, nm, none, none⟩) "birth_date" = .vnull
    ∧ Dict.get (UserProperties.to_dict ⟨uid, nm, none, none⟩) "gender" = .vnull
    ∧ User.from_entity (UserProperties.to_dict ⟨uid, nm, none, none⟩) =
        .ok (User.init uid nm none none) :=
  ⟨rfl, rfl, rfl⟩

/-- C9: for every property set whose gender value is the empty string
(present but falsy), `from_entity` silently returns a User with gender
`None` instead of raising a decode error, because the decode branches on
truthiness rather than presence. -/
theorem C9_empty_gender_silently_none (d : Dict)
    (hg : Dict.get d "gender" = .vstr "") :
    User.from_entity d =
      .ok (User.init (Dict.get d "user_id") (Dict.get d "name")
        (decodeBirthDate (Dict.get d "birth_date")) none) := by
  simp [User.from_entity, hg, Value.truthy]

/-- C9 witness: a concrete property set with gender set to the empty
string decodes without error to a User with gender `None`. -/
theorem C9_empty_gender_silently_none_witness :
    Dict.get [("user_id", Value.vstr "u1"), ("gender", Value.vstr "")] "gender" = .vstr ""
    ∧ User.from_entity [("user_id", Value.vstr "u1"), ("gender", Value.vstr "")] =
        .ok (User.init (Value.vstr "u1") .vnull none none) :=
  ⟨rfl, C9_empty_gender_silently_none [("user_id", Value.vstr "u1"), ("gender", Value.vstr "")] rfl⟩

/-- C10: every User produced by `__init__` or by a successful
`from_entity` has a populated `properties` field; consequently the
properties-is-None branch of `User.to_dict` is never taken for such users,
and `FollowRelationship.to_dict` never hits its `AttributeError` branch
when both endpoints have populated properties. -/
theorem C10_properties_always_present :
    (∀ (uid nm : Value) (bd : Option CalDate) (g : Option Gender),
      (User.init uid nm bd g).properties.isSome = true)
    ∧ (∀ (d : Dict) (u : User), User.from_entity d = .ok u → u.properties.isSome = true)
    ∧ (∀ u : User, u.properties.isSome = true → User.to_dict u ≠ none)
    ∧ (∀ r : FollowRelationship,
        r.start_node.properties.isSome = true → r.end_node.properties.isSome = true →
        ∃ fd, FollowRelationship.to_dict r = .ok fd) := by
  refine ⟨fun _ _ _ _ => rfl, ?_, ?_, ?_⟩
  · intro d u h
    simp only [User.from_entity] at h
    split at h
    · simp at h
    · simp only [Except.ok.injEq] at h
      subst h
      rfl
  · intro u h
    obtain ⟨props⟩ := u
    cases props with
    | none => simp at h
    | some p => simp [User.to_dict]
  · intro r h1 h2
    obtain ⟨⟨sp⟩, ⟨ep⟩, rp⟩ := r
    cases sp with
    | none => simp at h1
    | some sp =>
      cases ep with
      | none => simp at h2
      | some ep => exact ⟨_, rfl⟩

/-- C10 witness: the invariant instantiated at concrete users from both
construction paths and at a concrete relationship between them. -/
theorem C10_properties_always_present_witness :
    (User.init Value.vnull Value.vnull none none).properties.isSome = true
    ∧ User.to_dict (User.init Value.vnull Value.vnull none none) ≠ none
    ∧ ∃ fd, FollowRelationship.to_dict (FollowRelationship.init (Value.vstr "r")
        (User.init (Value.vstr "a") (Value.vstr "A") none none)
        (User.init (Value.vstr "b") (Value.vstr "B") none none) (Value.vstr "t")) = .ok fd :=
  ⟨C10_properties_always_present.2.1 [] _ rfl,
   C10_properties_always_present.2.2.1 _ rfl,
   C10_properties_always_present.2.2.2 _ rfl rfl⟩

/-- C4: the claim as stated is false.  In `basic.py`, when the first store
query raises, the script exits with one session opened but never closed
and the driver never closed: acquisition there is not scoped and the
explicit close calls are skipped on the error path. -/
theorem C4_counterexample :
    Script.exec (fun i => i == 0) basicScript ⟨0, 0, false⟩ =
      (⟨1, 0, false⟩, true) := rfl

/-- C4 (amended): `users.py` acquires its driver and its two per-batch
sessions through scoped acquisition, so on every exit path (whichever
queries raise) every opened session is closed, the driver is closed and no
exception escapes; `basic.py` releases its session and driver only on the
error-free path, and an error in a query leaks both. -/
theorem C4_scoped_release_amended (oracle : Nat → Bool) :
    ((Script.exec oracle usersMainScript ⟨0, 0, false⟩).1.opened =
        (Script.exec oracle usersMainScript ⟨0, 0, false⟩).1.closed
      ∧ (Script.exec oracle usersMainScript ⟨0, 0, false⟩).1.driverClosed = true
      ∧ (Script.exec oracle usersMainScript ⟨0, 0, false⟩).2 = false)
    ∧ Script.exec (fun _ => false) basicScript ⟨0, 0, false⟩ = (⟨1, 1, true⟩, false) := by
  refine ⟨?_, rfl⟩
  cases h0 : oracle 0 <;> cases h1 : oracle 1 <;>
    simp [Script.exec, usersMainScript, h0, h1]

/-!
Helper lemmas about `mapE` and the modelled store, shared by the batch
operation theorems.
-/

/-- Inversion for `mapE` on a cons cell. -/
theorem mapE_ok_cons_inv {α β ε : Type} (f : α → Except ε β) (a : α) (l : List α)
    (l2 : List β) (h : mapE f (a :: l) = .ok l2) :
    ∃ b tl, f a = .ok b ∧ mapE f l = .ok tl ∧ l2 = b :: tl := by
  simp only [mapE] at h
  cases hfa : f a with
  | error e => rw [hfa] at h; simp at h
  | ok b =>
      rw [hfa] at h
      cases hmt : mapE f l with
      | error e => rw [hmt] at h; simp at h
      | ok tl =>
          rw [hmt] at h
          simp only [Except.ok.injEq] at h
          exact ⟨b, tl, rfl, rfl, h.symm⟩

/-- A successful `mapE` yields a list of the same length as its input. -/
theorem mapE_ok_length {α β ε : Type} (f : α → Except ε β) :
    ∀ (l : List α) (l2 : List β), mapE f l = .ok l2 → l2.length = l.length := by
  intro l
  induction l with
  | nil =>
      intro l2 h
      simp only [mapE, Except.ok.injEq] at h
      subst h
      rfl
  | cons a t ih =>
      intro l2 h
      obtain ⟨b, tl, _, ht, rfl⟩ := mapE_ok_cons_inv f a t l2 h
      simp [ih tl ht]

/-- A successful `mapE` contains the image of every input element. -/
theorem mapE_ok_mem {α β ε : Type} (f : α → Except ε β) :
    ∀ (l : List α) (l2 : List β) (a : α) (b : β),
      mapE f l = .ok l2 → a ∈ l → f a = .ok b → b ∈ l2 := by
  intro l
  induction l with
  | nil =>
      intro l2 a b _ hmem
      exact absurd hmem (List.not_mem_nil a)
  | cons x t ih =>
      intro l2 a b h hmem hfa
      obtain ⟨b0, tl, hx, ht, rfl⟩ := mapE_ok_cons_inv f x t l2 h
      rcases List.mem_cons.mp hmem with rfl | hmem2
      · rw [hfa] at hx
        simp only [Except.ok.injEq] at hx
        rw [hx]
        exact List.mem_cons_self _ _
      · exact List.mem_cons_of_mem _ (ih tl a b ht hmem2 hfa)

/-- When the stored nodes carry pairwise-distinct `user_id` values, a
`MATCH` on a `user_id` returns at most one node. -/
theorem matchUsers_length_le_one (store : Store) (uid : Value)
    (hdis : (store.nodes.map (fun n => Dict.get n "user_id")).Pairwise (· ≠ ·)) :
    (store.matchUsers uid).length ≤ 1 := by
  unfold Store.matchUsers
  obtain ⟨nodes, edges⟩ := store
  simp only at hdis ⊢
  induction nodes with
  | nil => simp
  | cons n t ih =>
      simp only [List.map_cons, List.pairwise_cons] at hdis
      obtain ⟨hn, ht⟩ := hdis
      cases hcase : (Dict.get n "user_id" == uid) with
      | true =>
          have hempty : List.filter (fun m => Dict.get m "user_id" == uid) t = [] := by
            rw [List.filter_eq_nil_iff]
            intro m hm
            have hne := hn _ (List.mem_map_of_mem _ hm)
            simp only [beq_iff_eq] at hcase ⊢
            intro hme
            exact hne (by rw [hcase, hme])
          simp [List.filter_cons, hcase, hempty]
      | false =>
          simpa [List.filter_cons, hcase] using ih ht

/-- The cartesian pairing of two lists of length at most one has length at
most one. -/
theorem pairs_length_le_one {α β : Type} (la : List α) (lb : List β)
    (ha : la.length ≤ 1) (hb : lb.length ≤ 1) :
    (List.flatMap la (fun s => List.map (fun e => (s, e)) lb)).length ≤ 1 := by
  cases la with
  | nil => simp
  | cons a t =>
      cases t with
      | nil => simpa using hb
      | cons b t2 => simp at ha

/-- With pairwise-distinct stored `user_id`s, each query entry contributes
at most one row. -/
theorem rowsForEntry_ok_length_le_one (store : Store) (fd : FollowDict)
    (l : List FollowEdge)
    (hdis : (store.nodes.map (fun n => Dict.get n "user_id")).Pairwise (· ≠ ·))
    (h : rowsForEntry store fd = .ok l) : l.length ≤ 1 := by
  unfold rowsForEntry at h
  rw [mapE_ok_length _ _ _ h]
  exact pairs_length_le_one _ _
    (matchUsers_length_le_one store fd.start_user_id hdis)
    (matchUsers_length_le_one store fd.end_user_id hdis)

/-- An entry whose either endpoint matches no stored node contributes zero
rows. -/
theorem rowsForEntry_empty_of_miss (store : Store) (fd : FollowDict)
    (h : store.matchUsers fd.start_user_id = [] ∨ store.matchUsers fd.end_user_id = []) :
    rowsForEntry store fd = .ok [] := by
  unfold rowsForEntry
  rcases h with h | h
  · simp [h, mapE]
  · rw [h]
    have : List.flatMap (store.matchUsers fd.start_user_id)
        (fun s => List.map (fun e => (s, e)) ([] : List Dict)) = [] := by
      induction store.matchUsers fd.start_user_id with
      | nil => rfl
      | cons a t ih => simp [List.flatMap_cons, ih]
    rw [this]
    rfl

/-- Under distinct stored ids, the rows of a successful batch never exceed
the number of entries. -/
theorem mapE_rows_flatten_le (store : Store)
    (hdis : (store.nodes.map (fun n => Dict.get n "user_id")).Pairwise (· ≠ ·)) :
    ∀ (fds : List FollowDict) (rowlists : List (List FollowEdge)),
      mapE (rowsForEntry store) fds = .ok rowlists →
      rowlists.flatten.length ≤ fds.length := by
  intro fds
  induction fds with
  | nil =>
      intro rl h
      simp only [mapE, Except.ok.injEq] at h
      subst h
      simp
  | cons fd t ih =>
      intro rl h
      obtain ⟨l0, tl, hf, ht, rfl⟩ := mapE_ok_cons_inv _ _ _ _ h
      have h0 := rowsForEntry_ok_length_le_one store fd l0 hdis hf
      have h1 := ih tl ht
      simp only [List.flatten_cons, List.length_append, List.length_cons]
      omega

/-- Under distinct stored ids, a batch containing an entry with a missing
endpoint yields strictly fewer rows than entries. -/
theorem rows_flatten_lt (store : Store)
    (hdis : (store.nodes.map (fun n => Dict.get n "user_id")).Pairwise (· ≠ ·)) :
    ∀ (fds : List FollowDict) (rowlists : List (List FollowEdge)) (fd : FollowDict),
      fd ∈ fds →
      (store.matchUsers fd.start_user_id = [] ∨ store.matchUsers fd.end_user_id = []) →
      mapE (rowsForEntry store) fds = .ok rowlists →
      rowlists.flatten.length < fds.length := by
  intro fds
  induction fds with
  | nil =>
      intro rl fd hmem
      exact absurd hmem (List.not_mem_nil fd)
  | cons f0 t ih =>
      intro rl fd hmem hbad h
      obtain ⟨l0, tl, hf, ht, rfl⟩ := mapE_ok_cons_inv _ _ _ _ h
      rcases List.mem_cons.mp hmem with rfl | hmem2
      · rw [rowsForEntry_empty_of_miss store fd hbad] at hf
        simp only [Except.ok.injEq] at hf
        subst hf
        have h1 := mapE_rows_flatten_le store hdis t tl ht
        simp only [List.flatten_cons, List.nil_append, List.length_cons]
        omega
      · have h0 := rowsForEntry_ok_length_le_one store f0 l0 hdis hf
        have h1 := ih tl fd hmem2 hbad ht
        simp only [List.flatten_cons, List.length_append, List.length_cons]
        omega

/-- The serialized user property bag stores the `user_id` under its key. -/
theorem get_user_id (p : UserProperties) :
    Dict.get (UserProperties.to_dict p) "user_id" = p.user_id := rfl

/-- Inversion for a successful follow-creation query. -/
theorem runCreateFollowsQuery_ok_inv (store : Store) (fds : List FollowDict)
    (store2 : Store) (rows : List FollowEdge)
    (h : runCreateFollowsQuery store fds = .ok (store2, rows)) :
    ∃ rowlists, mapE (rowsForEntry store) fds = .ok rowlists
      ∧ rows = rowlists.flatten := by
  unfold runCreateFollowsQuery at h
  split at h
  · simp at h
  · rename_i rowlists heq
    simp only [Except.ok.injEq, Prod.mk.injEq] at h
    exact ⟨rowlists, heq, h.2.symm⟩

/-- Inversion for a successful `create_follow_relationships` call. -/
theorem create_follow_ok_inv (store : Store) (rels : List FollowRelationship)
    (store2 : Store) (out : List FollowRelationship)
    (h : create_follow_relationships store rels = .ok (store2, out)) :
    ∃ fds rows,
      mapE (fun r => Except.mapError RunError.py (FollowRelationship.to_dict r)) rels = .ok fds
      ∧ runCreateFollowsQuery store fds = .ok (store2, rows)
      ∧ out.length = rows.length := by
  unfold create_follow_relationships at h
  split at h
  · simp at h
  · rename_i fds hfds
    split at h
    · simp at h
    · rename_i store3 rows hq
      split at h
      · simp at h
      · rename_i created hcreated
        simp only [Except.ok.injEq, Prod.mk.injEq] at h
        obtain ⟨rfl, rfl⟩ := h
        exact ⟨fds, rows, hfds, hq, mapE_ok_length _ _ _ hcreated⟩

/-- C5: (spec-modelled store) for every batch containing an entry whose
endpoint `user_id` matches no stored node, that entry contributes zero
rows, so when the stored nodes have pairwise-distinct `user_id`s (each
other entry contributes at most one row) a successful
`create_follow_relationships` returns a list strictly shorter than the
input list, and the empty list when that entry is the only input, letting
the caller detect the partial failure by comparing lengths. -/
theorem C5_missing_endpoint_short_result (store store2 : Store)
    (rels out : List FollowRelationship) (r : FollowRelationship) (fd : FollowDict)
    (hdis : (store.nodes.map (fun n => Dict.get n "user_id")).Pairwise (· ≠ ·))
    (hmem : r ∈ rels) (hfd : FollowRelationship.to_dict r = .ok fd)
    (hmiss : store.matchUsers fd.start_user_id = [] ∨ store.matchUsers fd.end_user_id = [])
    (hok : create_follow_relationships store rels = .ok (store2, out)) :
    out.length < rels.length ∧ (rels.length = 1 → out = []) := by
  obtain ⟨fds, rows, hfds, hq, hlen⟩ := create_follow_ok_inv store rels store2 out hok
  obtain ⟨rowlists, hrl, hrows⟩ := runCreateFollowsQuery_ok_inv store fds store2 rows hq
  have hfdmem : fd ∈ fds :=
    mapE_ok_mem _ rels fds r fd hfds hmem (by rw [hfd]; rfl)
  have hlt := rows_flatten_lt store hdis fds rowlists fd hfdmem hmiss hrl
  have hfdslen : fds.length = rels.length := mapE_ok_length _ _ _ hfds
  have hout : out.length < rels.length := by
    rw [hlen, hrows]
    omega
  refine ⟨hout, fun h1 => ?_⟩
  rw [h1] at hout
  exact List.length_eq_zero.mp (by omega)

/-- C5 witness: a store holding one user "a", and a single relationship
whose end user "b" was never created; the call succeeds with an empty
result list, strictly shorter than the one-element input. -/
theorem C5_missing_endpoint_short_result_witness :
    ((Store.mk [UserProperties.to_dict ⟨.vstr "a", .vstr "Alice", none, none⟩] []).nodes.map
        (fun n => Dict.get n "user_id")).Pairwise (· ≠ ·)
    ∧ FollowRelationship.to_dict (FollowRelationship.init (.vstr "r1")
        (User.init (.vstr "a") (.vstr "Alice") none none)
        (User.init (.vstr "b") (.vstr "Bob") none none)
        (.vdatetime ⟨2024, 1, 2, 0, 0, 0⟩)) =
      .ok ⟨.vstr "a", .vstr "b",
           some [("relationship_id", .vstr "r1"),
                 ("since", .vdatetime ⟨2024, 1, 2, 0, 0, 0⟩)]⟩
    ∧ (Store.mk [UserProperties.to_dict ⟨.vstr "a", .vstr "Alice", none, none⟩] []).matchUsers
        (.vstr "b") = []
    ∧ (([] : List FollowRelationship).length <
          [FollowRelationship.init (.vstr "r1")
            (User.init (.vstr "a") (.vstr "Alice") none none)
            (User.init (.vstr "b") (.vstr "Bob") none none)
            (.vdatetime ⟨2024, 1, 2, 0, 0, 0⟩)].length
        ∧ ([FollowRelationship.init (.vstr "r1")
            (User.init (.vstr "a") (.vstr "Alice") none none)
            (User.init (.vstr "b") (.vstr "Bob") none none)
            (.vdatetime ⟨2024, 1, 2, 0, 0, 0⟩)].length = 1 →
          ([] : List FollowRelationship) = [])) := by
  refine ⟨by simp, rfl, by decide, ?_⟩
  exact C5_missing_endpoint_short_result
    (Store.mk [UserProperties.to_dict ⟨.vstr "a", .vstr "Alice", none, none⟩] [])
    (Store.mk [UserProperties.to_dict ⟨.vstr "a", .vstr "Alice", none, none⟩] [])
    [FollowRelationship.init (.vstr "r1")
        (User.init (.vstr "a") (.vstr "Alice") none none)
        (User.init (.vstr "b") (.vstr "Bob") none none)
        (.vdatetime ⟨2024, 1, 2, 0, 0, 0⟩)] []
    (FollowRelationship.init (.vstr "r1")
        (User.init (.vstr "a") (.vstr "Alice") none none)
        (User.init (.vstr "b") (.vstr "Bob") none none)
        (.vdatetime ⟨2024, 1, 2, 0, 0, 0⟩))
    ⟨.vstr "a", .vstr "b",
     some [("relationship_id", .vstr "r1"),
           ("since", .vdatetime ⟨2024, 1, 2, 0, 0, 0⟩)]⟩
    (by simp) (List.mem_singleton.mpr rfl) rfl (Or.inr (by decide)) rfl

/-- C6: (spec-modelled store) for every three Users with pairwise-distinct
`user_id`s, `create_user_nodes` returns exactly three reconstructed Users
whose `user_id` values are, order-insensitively, the input ids. -/
theorem C6_batch_create_users (store : Store) (p1 p2 p3 : UserProperties)
    (h12 : p1.user_id ≠ p2.user_id) (h13 : p1.user_id ≠ p3.user_id)
    (h23 : p2.user_id ≠ p3.user_id) :
    ∃ store2 created,
      create_user_nodes store [⟨some p1⟩, ⟨some p2⟩, ⟨some p3⟩] = .ok (store2, created)
      ∧ created.length = 3
      ∧ (created.map (fun u => Option.map (fun q => q.user_id) u.properties)).Perm
          [some p1.user_id, some p2.user_id, some p3.user_id] := by
  refine ⟨{ store with
      nodes := store.nodes ++ [p1.to_dict, p2.to_dict, p3.to_dict] },
    [User.init p1.user_id p1.name none p1.gender,
     User.init p2.user_id p2.name none p2.gender,
     User.init p3.user_id p3.name none p3.gender], ?_, rfl, ?_⟩
  · simp [create_user_nodes, runCreateUsersQuery, mapE, User.to_dict,
      from_entity_to_dict, Except.mapError]
  · have hmap : List.map (fun u => Option.map (fun q => q.user_id) u.properties)
        [User.init p1.user_id p1.name none p1.gender,
         User.init p2.user_id p2.name none p2.gender,
         User.init p3.user_id p3.name none p3.gender] =
        [some p1.user_id, some p2.user_id, some p3.user_id] := rfl
    rw [hmap]

/-- C6 witness: three concrete users with distinct ids "a", "b", "c". -/
theorem C6_batch_create_users_witness :
    (Value.vstr "a" ≠ Value.vstr "b" ∧ Value.vstr "a" ≠ Value.vstr "c"
      ∧ Value.vstr "b" ≠ Value.vstr "c")
    ∧ ∃ store2 created,
        create_user_nodes ⟨[], []⟩
          [⟨some ⟨.vstr "a", .vstr "Alice", none, none⟩⟩,
           ⟨some ⟨.vstr "b", .vstr "Bob", none, none⟩⟩,
           ⟨some ⟨.vstr "c", .vstr "Carol", none, none⟩⟩] = .ok (store2, created)
        ∧ created.length = 3
        ∧ (created.map (fun u => Option.map (fun q => q.user_id) u.properties)).Perm
            [some (.vstr "a"), some (.vstr "b"), some (.vstr "c")] :=
  ⟨⟨by decide, by decide, by decide⟩,
   C6_batch_create_users ⟨[], []⟩ ⟨.vstr "a", .vstr "Alice", none, none⟩
     ⟨.vstr "b", .vstr "Bob", none, none⟩ ⟨.vstr "c", .vstr "Carol", none, none⟩
     (by decide) (by decide) (by decide)⟩

/-- C7: (spec-modelled store) with two users A and B already created in
the store and a single FollowRelationship from A to B carrying a `since`
timestamp, `create_follow_relationships` returns exactly one reconstructed
relationship whose start node has A's `user_id`, whose end node has B's
`user_id`, and whose `since` equals the input timestamp exactly. -/
theorem C7_single_follow_roundtrip (A B : UserProperties) (edges0 : List FollowEdge)
    (rid : Value) (ts : Timestamp) (hab : A.user_id ≠ B.user_id) :
    ∃ store2 rel,
      create_follow_relationships ⟨[UserProperties.to_dict A, UserProperties.to_dict B], edges0⟩
          [FollowRelationship.init rid ⟨some A⟩ ⟨some B⟩ (.vdatetime ts)] =
        .ok (store2, [rel])
      ∧ Option.map (fun q => q.user_id) rel.start_node.properties = some A.user_id
      ∧ Option.map (fun q => q.user_id) rel.end_node.properties = some B.user_id
      ∧ Option.map (fun q => q.since) rel.properties = some (Value.vdatetime ts) := by
  have hmA : Store.matchUsers
      ⟨[UserProperties.to_dict A, UserProperties.to_dict B], edges0⟩ A.user_id =
      [UserProperties.to_dict A] := by
    simp [Store.matchUsers, List.filter_cons, get_user_id, beq_iff_eq, Ne.symm hab]
  have hmB : Store.matchUsers
      ⟨[UserProperties.to_dict A, UserProperties.to_dict B], edges0⟩ B.user_id =
      [UserProperties.to_dict B] := by
    simp [Store.matchUsers, List.filter_cons, get_user_id, beq_iff_eq, hab]
  refine ⟨⟨[UserProperties.to_dict A, UserProperties.to_dict B],
      edges0 ++ [⟨[("relationship_id", rid), ("since", Value.vdatetime ts)],
        UserProperties.to_dict A, UserProperties.to_dict B⟩]⟩,
    FollowRelationship.init rid (User.init A.user_id A.name none A.gender)
      (User.init B.user_id B.name none B.gender) (Value.vdatetime ts),
    ?_, rfl, rfl, rfl⟩
  simp [create_follow_relationships, runCreateFollowsQuery, rowsForEntry, mapE,
    FollowRelationship.to_dict, FollowRelationship.from_entity, FollowRelationship.init,
    FollowProperties.to_dict, hmA, hmB, from_entity_to_dict, Except.mapError, Dict.get]

/-- C7 witness: concrete users "a" and "b" and one concrete relationship
between them with a concrete timestamp. -/
theorem C7_single_follow_roundtrip_witness :
    Value.vstr "a" ≠ Value.vstr "b"
    ∧ ∃ store2 rel,
        create_follow_relationships
            ⟨[UserProperties.to_dict ⟨.vstr "a", .vstr "Alice", none, none⟩,
              UserProperties.to_dict ⟨.vstr "b", .vstr "Bob", none, none⟩], []⟩
            [FollowRelationship.init (.vstr "r1")
              ⟨some ⟨.vstr "a", .vstr "Alice", none, none⟩⟩
              ⟨some ⟨.vstr "b", .vstr "Bob", none, none⟩⟩
              (.vdatetime ⟨2024, 1, 2, 0, 0, 0⟩)] = .ok (store2, [rel])
        ∧ Option.map (fun q => q.user_id) rel.start_node.properties = some (.vstr "a")
        ∧ Option.map (fun q => q.user_id) rel.end_node.properties = some (.vstr "b")
        ∧ Option.map (fun q => q.since) rel.properties =
            some (Value.vdatetime ⟨2024, 1, 2, 0, 0, 0⟩) :=
  ⟨by decide,
   C7_single_follow_roundtrip ⟨.vstr "a", .vstr "Alice", none, none⟩
     ⟨.vstr "b", .vstr "Bob", none, none⟩ [] (.vstr "r1") ⟨2024, 1, 2, 0, 0, 0⟩
     (by decide)⟩

end Neo4jClient
